import Mathlib

/-!
Verification of the trace-context propagation, span-factory, provider-lifecycle
and logger-configuration subsystems of the `tracing-otel-extra` repository,
as a shallow embedding in Lean 4.

Machine integers are modelled as `Nat` with explicit bounds (`< 2 ^ 128` for
trace ids, `< 2 ^ 64` for span ids).  Fallible operations return `Option` or
`Except`.  Header carriers are association lists from header names to header
values (lists of characters).
-/

set_option autoImplicit false

namespace TracingOtel

/-! ## Hexadecimal encoding and decoding

The wire header contract carries the 128-bit trace id as 32 hex characters and
the 64-bit span id as 16 hex characters. -/

/-- Lowercase hex character for a digit value (`0` for out-of-range input):
digits below ten map to the ASCII digits starting at code 48, the remaining
six to the lowercase letters starting at code 97. -/
def hexChar (d : Nat) : Char :=
  if d < 10 then Char.ofNat (48 + d)
  else if d < 16 then Char.ofNat (87 + d)
  else '0'

/-- Numeric value of a hexadecimal digit character, `none` when the character
is not a hex digit. -/
def hexCharVal? (c : Char) : Option Nat :=
  if 48 ≤ c.toNat ∧ c.toNat ≤ 57 then some (c.toNat - 48)
  else if 97 ≤ c.toNat ∧ c.toNat ≤ 102 then some (c.toNat - 97 + 10)
  else if 65 ≤ c.toNat ∧ c.toNat ≤ 70 then some (c.toNat - 65 + 10)
  else none

/-- Parse a big-endian list of hex characters into a number; `none` when any
character is not a hex digit. -/
def parseHex? : List Char → Option Nat
  | [] => some 0
  | c :: cs =>
    match hexCharVal? c, parseHex? cs with
    | some d, some r => some (d * 16 ^ cs.length + r)
    | _, _ => none

/-- Render `n` as exactly `w` big-endian lowercase hex characters
(the value is taken modulo `16 ^ w`). -/
def toHexFixed : Nat → Nat → List Char
  | 0, _ => []
  | w + 1, n => hexChar (n / 16 ^ w % 16) :: toHexFixed w n

/-! ## Splitting a character list at a separator -/

/-- Split a character list at every occurrence of `sep`, keeping empty
groups (mirrors splitting a string at a separator character). -/
def splitOnChar (sep : Char) : List Char → List (List Char)
  | [] => [[]]
  | c :: cs =>
    if c = sep then [] :: splitOnChar sep cs
    else
      match splitOnChar sep cs with
      | [] => [[c]]
      | g :: gs => (c :: g) :: gs

/-- Strip leading and trailing whitespace from a character list (models
trimming a string). -/
def trimChars (cs : List Char) : List Char :=
  ((cs.dropWhile Char.isWhitespace).reverse.dropWhile Char.isWhitespace).reverse

/-! ## Data model: trace identity and header carriers

`TraceIdentity` is the data model's `{trace_id, span_id, sampled, vendor_state}`
tuple.  A propagation `Context` either carries a remote trace identity or
represents "no parent". -/

/-- A position in a distributed call tree: 128-bit trace id, 64-bit span id,
sampling flag, and ordered vendor state (`tracestate` key=value pairs). -/
structure TraceIdentity where
  traceId : Nat
  spanId : Nat
  sampled : Bool
  vendorState : List (String × String)
deriving DecidableEq, Repr

/-- A propagation context: `none` models the "no parent" context produced when
the carrier has no valid trace header. -/
abbrev Context := Option TraceIdentity

/-- A header carrier: association list from (lowercase) header names to header
values, first binding wins (models `http::HeaderMap`). -/
abbrev Headers := List (String × List Char)

/-- Look up a header value by name (models `HeaderMap::get` on the
lowercase-normalized header names used by the propagator). -/
def getHeader (hs : Headers) (k : String) : Option (List Char) :=
  match hs.find? (fun p => p.1 = k) with
  | some p => some p.2
  | none => none

/-- Insert or replace a header value (models `HeaderMap::insert` as used by the
injector). -/
def setHeader (hs : Headers) (k : String) (v : List Char) : Headers :=
  hs.filter (fun p => p.1 ≠ k) ++ [(k, v)]

/-! ## Context Propagator (W3C trace context)

The repository's `extract_context_from_headers` / `inject_context_into_request`
(src/crates/tracing-otel/src/http/propagation.rs) delegate to the globally
registered propagator, which `init_tracer_provider` sets to the W3C
`TraceContextPropagator` of the OpenTelemetry SDK.  The propagator itself is a
dependency, not code under src/, so its decode/encode are modelled from the
spec here. -/

/-- Modelled from the spec: decoding of the `traceparent` header.  The SDK's
`TraceContextPropagator::extract` is not in this repository; the spec describes
the carrier as "a single ASCII header conveying version, 128-bit trace id
(32 hex chars), 64-bit parent span id (16 hex chars), and an 8-bit flags byte,
hyphen-joined", with malformed headers yielding "no parent".  Decoding splits
at hyphens, checks the field widths, rejects the all-ones version and zero
trace/span ids, and reads the sampling flag from the low bit of the flags
byte.  Returns `(trace id, span id, sampled)`. -/
def parseTraceparent (cs : List Char) : Option (Nat × Nat × Bool) :=
  match splitOnChar '-' cs with
  | [ver, tid, sid, flg] =>
    match parseHex? ver, parseHex? tid, parseHex? sid, parseHex? flg with
    | some v, some t, some s, some f =>
      if ver.length = 2 ∧ v ≠ 255 ∧ tid.length = 32 ∧ t ≠ 0 ∧
          sid.length = 16 ∧ s ≠ 0 ∧ flg.length = 2 then
        some (t, s, f % 2 == 1)
      else none
    | _, _, _, _ => none
  | _ => none

/-- Modelled from the spec: the companion `tracestate` header "conveys
vendor-specific state as comma-separated key=value pairs"; entries without a
`=` are dropped (best-effort decoding never fails). -/
def parseTracestate (cs : List Char) : List (String × String) :=
  (splitOnChar ',' cs).filterMap fun entry =>
    match splitOnChar '=' entry with
    | [k, v] => some (k.asString, v.asString)
    | _ => none

/-- Embeds `extract_context_from_headers`
(src/crates/tracing-otel/src/http/propagation.rs): decode the carrier with the
globally registered propagator (modelled by `parseTraceparent` /
`parseTracestate`); any absent or malformed `traceparent` yields the
"no parent" context. -/
def extract_context_from_headers (headers : Headers) : Context :=
  match getHeader headers "traceparent" with
  | none => none
  | some v =>
    match parseTraceparent v with
    | none => none
    | some (t, s, smp) =>
      some ⟨t, s, smp,
        match getHeader headers "tracestate" with
        | none => []
        | some ts => parseTracestate ts⟩

/-- Flags byte of the `traceparent` header: `01` when sampled, `00` otherwise. -/
def traceFlagsValue (sampled : Bool) : List Char :=
  if sampled then ['0', '1'] else ['0', '0']

/-- Modelled from the spec: encoding of a trace identity as the hyphen-joined
`traceparent` header value (version `00`, 32 hex chars of trace id, 16 hex
chars of span id, 2 hex chars of flags). -/
def traceparentValue (x : TraceIdentity) : List Char :=
  ['0', '0', '-'] ++ toHexFixed 32 x.traceId ++
    '-' :: toHexFixed 16 x.spanId ++ '-' :: traceFlagsValue x.sampled

/-- Join a list of strings with a separator. -/
def joinWith (sep : String) : List String → String
  | [] => ""
  | [s] => s
  | s :: rest => s ++ sep ++ joinWith sep rest

/-- The `tracestate` header value: the ordered, comma-joined list of
`key=value` pairs. -/
def joinPairs (ps : List (String × String)) : List Char :=
  (joinWith "," (ps.map fun p => p.1 ++ "=" ++ p.2)).data

/-- A trace identity is valid when both ids are non-zero (the injector only
writes headers for a valid remote span context). -/
def isValidIdentity (x : TraceIdentity) : Bool :=
  x.traceId != 0 && x.spanId != 0

/-- Embeds `inject_context_into_request`
(src/crates/tracing-otel/src/http/propagation.rs): encode the context into the
carrier with the globally registered propagator (modelled from the spec's wire
header contract).  A "no parent" or invalid context writes nothing. -/
def inject_context_into_request (ctx : Context) (headers : Headers) : Headers :=
  match ctx with
  | none => headers
  | some x =>
    if isValidIdentity x then
      setHeader (setHeader headers "traceparent" (traceparentValue x))
        "tracestate" (joinPairs x.vendorState)
    else headers

/-! ## Span Factory

Embeds `make_request_span` (src/crates/tracing-otel/src/http/span.rs) and
`set_otel_parent` (src/crates/tracing-otel/src/http/context.rs).  The
`tracing`/`tracing-opentelemetry` span machinery (field recording, `set_parent`,
and the trace id the OpenTelemetry layer assigns to a span) is a dependency,
modelled from the spec: a span's OpenTelemetry context carries the parent's
trace id when a remote parent was set, and a freshly generated one otherwise. -/

/-- Severity level of `tracing::Level`. -/
inductive Level
  | trace
  | debug
  | info
  | warn
  | error
deriving DecidableEq, Repr

/-- A span attribute value: either still `Empty` (reserved, to be filled later)
or a recorded string rendering. -/
inductive FieldValue
  | empty
  | str (s : String)
deriving DecidableEq, Repr

/-- The key for the trace id in the span attributes
(src/crates/tracing-otel/src/http/context.rs). -/
def TRACE_ID : String := "trace_id"

/-- A `tracing::Span` as observed by this subsystem: its name, severity, its
declared fields, its OpenTelemetry parent context, whether a parent has been
set, and the trace id the tracer generated for it at creation (used when no
remote parent is set). -/
structure Span where
  name : String
  level : Level
  fields : List (String × FieldValue)
  parent : Context
  parentSet : Bool
  freshTraceId : Nat
deriving DecidableEq, Repr

/-- Record a value into a declared span field; recording a field the span did
not declare is a no-op (as in `tracing`). -/
def Span.record (sp : Span) (k : String) (v : String) : Span :=
  { sp with
    fields := sp.fields.map fun p => if p.1 = k then (p.1, FieldValue.str v) else p }

/-- Modelled from the spec: `OpenTelemetrySpanExt::set_parent` (a dependency of
src/crates/tracing-otel/src/http/context.rs).  Setting the parent of a span
that has already started fails; the failure "is logged as a warning and does
not propagate as an error". -/
def Span.set_parent (sp : Span) (ctx : Context) : Except String Span :=
  if sp.parentSet then Except.error "span already started"
  else Except.ok { sp with parent := ctx, parentSet := true }

/-- Modelled from the spec: the trace id of the span's OpenTelemetry span
context — the remote parent's trace id when one was set, otherwise the
"freshly-generated" trace id the tracer assigned. -/
def Span.contextTraceId (sp : Span) : Nat :=
  match sp.parent with
  | some p => p.traceId
  | none => sp.freshTraceId

/-- Display rendering of a 128-bit trace id: 32 lowercase hex characters
(the `Display` form recorded into the `trace_id` field). -/
def traceIdDisplay (t : Nat) : String :=
  (toHexFixed 32 t).asString

/-- Embeds `set_otel_parent` (src/crates/tracing-otel/src/http/context.rs):
decode the incoming carrier, attempt to set the decoded context as the span's
parent (a failure is swallowed after a warning), then record the resulting
trace id into the reserved `trace_id` field. -/
def set_otel_parent (headers : Headers) (span : Span) : Span :=
  let remote_context := extract_context_from_headers headers
  let span :=
    match span.set_parent remote_context with
    | Except.ok s => s
    | Except.error _ => span
  span.record TRACE_ID (traceIdDisplay span.contextTraceId)

/-- An inbound HTTP request as consumed by the Span Factory: method, target
(path and query) and headers. -/
structure Request where
  method : String
  target : String
  headers : Headers
deriving DecidableEq, Repr

/-- Embeds `extract_request_id_from_headers`
(src/crates/tracing-otel/src/trace/fields.rs): the `x-request-id` header,
falling back to `request-id`. -/
def extract_request_id_from_headers (headers : Headers) : Option (List Char) :=
  (getHeader headers "x-request-id").or (getHeader headers "request-id")

/-- Embeds `extract_request_id` (src/crates/tracing-otel/src/trace/fields.rs):
the request id header value, or the empty string. -/
def extract_request_id (request : Request) : String :=
  match extract_request_id_from_headers request.headers with
  | some v => v.asString
  | none => ""

/-- Embeds `extract_user_agent` (src/crates/tracing-otel/src/trace/fields.rs). -/
def extract_user_agent (request : Request) : Option (List Char) :=
  getHeader request.headers "user-agent"

/-- Embeds `extract_host` (src/crates/tracing-otel/src/trace/fields.rs). -/
def extract_host (request : Request) : Option (List Char) :=
  getHeader request.headers "host"

/-- Field rendering of an optional header-derived value (debug formatting of
an `Option`, collapsed to the plain string here). -/
def optionalField (v : Option (List Char)) : FieldValue :=
  match v with
  | some cs => FieldValue.str cs.asString
  | none => FieldValue.str ""

/-- Embeds `make_request_span` (src/crates/tracing-otel/src/http/span.rs):
build the `"request"` span with its fixed attribute schema (reserving `Empty`
slots for `http.route`, `http.status`, the `otel.*` fields and `trace_id`),
then immediately run `set_otel_parent` against the request headers.
`freshTraceId` stands for the trace id the tracer's random id generator would
assign to the span absent a remote parent. -/
def make_request_span (level : Level) (request : Request) (freshTraceId : Nat) : Span :=
  let span : Span :=
    { name := "request"
      level := level
      fields :=
        [("http.host", optionalField (extract_host request)),
          ("http.method", FieldValue.str request.method),
          ("http.route", FieldValue.empty),
          ("http.status", FieldValue.empty),
          ("http.target", FieldValue.str request.target),
          ("http.user_agent", optionalField (extract_user_agent request)),
          ("otel.name", FieldValue.empty),
          ("otel.kind", FieldValue.empty),
          ("otel.status", FieldValue.empty),
          ("request_id", FieldValue.str (extract_request_id request)),
          ("trace_id", FieldValue.empty)]
      parent := none
      parentSet := false
      freshTraceId := freshTraceId }
  set_otel_parent request.headers span

/-! ## Lifecycle Guard

Embeds `OtelGuard` (src/crates/tracing-opentelemetry/src/guard.rs).  A
provider is modelled by the outcome its `shutdown()` call would produce
(`none` = success, `some e` = failure with message `e`), together with a name
so that distinct providers are distinguishable. -/

/-- An exporter-backed provider handle, modelled by its name and the outcome
of its `shutdown()` call. -/
structure Provider where
  name : String
  shutdownError : Option String
deriving DecidableEq, Repr

/-- The guard holding the optional trace / metric / log provider handles. -/
structure OtelGuard where
  tracer_provider : Option Provider
  meter_provider : Option Provider
  logger_provider : Option Provider
deriving DecidableEq, Repr

/-- Outcome of one teardown pass over a guard: the residual guard state (every
handle taken), the providers whose `shutdown()` was invoked in order, and the
collected failure messages in order. -/
structure TeardownRun where
  guard : OtelGuard
  invoked : List Provider
  errors : List String
deriving DecidableEq, Repr

/-- One `if let Some(p) = handle.take() { if let Err(e) = p.shutdown() ... }`
step: take the handle, invoke its shutdown, collect its failure. -/
def shutdownStep (handle : Option Provider) (acc : List Provider × List String) :
    List Provider × List String :=
  match handle with
  | none => acc
  | some p =>
    (acc.1 ++ [p],
      match p.shutdownError with
      | none => acc.2
      | some e => acc.2 ++ [e])

/-- The message of the error `OtelGuard::shutdown` returns when any provider
failed: models the `anyhow` error whose message renders the whole collected
failure vector in debug format. -/
def shutdownErrorMessage (errors : List String) : String :=
  "Failed to shutdown some providers: [" ++ joinWith ", " errors ++ "]"

/-- Embeds `OtelGuard::shutdown` (src/crates/tracing-opentelemetry/src/guard.rs):
take and shut down every held provider even if earlier ones fail, collect all
failures, and return `Ok` when none failed, else a single error built from the
whole collected failure list. -/
def OtelGuard.shutdown (g : OtelGuard) : TeardownRun × Except String Unit :=
  let acc := shutdownStep g.tracer_provider ([], [])
  let acc := shutdownStep g.meter_provider acc
  let acc := shutdownStep g.logger_provider acc
  ({ guard := ⟨none, none, none⟩, invoked := acc.1, errors := acc.2 },
    if acc.2.isEmpty then Except.ok ()
    else Except.error (shutdownErrorMessage acc.2))

/-- Embeds `impl Drop for OtelGuard`
(src/crates/tracing-opentelemetry/src/guard.rs): take and shut down every
still-held provider; each failure is written to the side channel (`errors`
models the `eprintln!` lines) and never raised. -/
def OtelGuard.dropRun (g : OtelGuard) : TeardownRun :=
  let acc := shutdownStep g.tracer_provider ([], [])
  let acc := shutdownStep g.meter_provider acc
  let acc := shutdownStep g.logger_provider acc
  { guard := ⟨none, none, none⟩, invoked := acc.1, errors := acc.2 }

/-- The providers a guard currently holds, in teardown order. -/
def OtelGuard.heldProviders (g : OtelGuard) : List Provider :=
  g.tracer_provider.toList ++ g.meter_provider.toList ++ g.logger_provider.toList

/-! ## Provider Assembly: exporter protocol resolution

Embeds `parse_protocol`, `protocol_from_env` and `protocol_for_signal`
(src/crates/tracing-opentelemetry/src/otel.rs).  The process environment is
modelled as a partial map from variable names to values. -/

/-- An OTLP exporter wire protocol. -/
inductive Protocol
  | grpc
  | httpBinary
  | httpJson
deriving DecidableEq, Repr

/-- The process environment: a partial map from variable names to values. -/
abbrev Env := String → Option String

/-- The global protocol environment variable consulted after the
signal-specific one. -/
def OTEL_EXPORTER_OTLP_PROTOCOL : String := "OTEL_EXPORTER_OTLP_PROTOCOL"

/-- Trim plus ASCII lowercasing, as `value.trim().to_ascii_lowercase()`. -/
def normalizeProtocolValue (value : String) : String :=
  ((trimChars value.data).map Char.toLower).asString

/-- Embeds `parse_protocol` (src/crates/tracing-opentelemetry/src/otel.rs):
recognizes `grpc`, `http/protobuf` (or `http/proto`) and `http/json` after
trimming and ASCII-lowercasing; anything else is `none`. -/
def parse_protocol (value : String) : Option Protocol :=
  if normalizeProtocolValue value = "grpc" then some Protocol.grpc
  else if normalizeProtocolValue value = "http/protobuf" ∨
      normalizeProtocolValue value = "http/proto" then some Protocol.httpBinary
  else if normalizeProtocolValue value = "http/json" then some Protocol.httpJson
  else none

/-- Embeds `protocol_from_env` (src/crates/tracing-opentelemetry/src/otel.rs):
the parsed protocol from an environment variable, `none` when the variable is
unset or its value is invalid. -/
def protocol_from_env (env : Env) (key : String) : Option Protocol :=
  match env key with
  | none => none
  | some value => parse_protocol value

/-- Embeds `protocol_for_signal` (src/crates/tracing-opentelemetry/src/otel.rs):
the signal-specific variable, then the global variable, then gRPC. -/
def protocol_for_signal (env : Env) (signal_env : String) : Protocol :=
  match protocol_from_env env signal_env with
  | some p => p
  | none =>
    match protocol_from_env env OTEL_EXPORTER_OTLP_PROTOCOL with
    | some p => p
    | none => Protocol.grpc

/-! ## Output Layer Composer: span-event parsing

Embeds `deserialize_span_events`
(src/crates/tracing-otel/src/logger/deserialize.rs).  `FmtSpan` is the bitflag
set of `tracing_subscriber::fmt::format::FmtSpan`. -/

namespace FmtSpan

/-- Span-creation event flag. -/
def NEW : Nat := 1

/-- Span-enter event flag. -/
def ENTER : Nat := 2

/-- Span-exit event flag. -/
def EXIT : Nat := 4

/-- Span-close event flag. -/
def CLOSE : Nat := 8

/-- The empty span-event set. -/
def NONE : Nat := 0

/-- Enter and exit events. -/
def ACTIVE : Nat := ENTER ||| EXIT

/-- All span events. -/
def FULL : Nat := NEW ||| ENTER ||| EXIT ||| CLOSE

end FmtSpan

/-- Whether a token is one of the two spellings of the FULL token (which
short-circuits the parse). -/
def isFullToken (part : String) : Bool :=
  part = "FMT::FULL" || part = "FmtSpan::FULL"

/-- The flag contributed by a recognized non-FULL token, `none` for an
unrecognized token. -/
def spanEventFlag? (part : String) : Option Nat :=
  if part = "FMT::NEW" ∨ part = "FmtSpan::NEW" then some FmtSpan.NEW
  else if part = "FMT::ENTER" ∨ part = "FmtSpan::ENTER" then some FmtSpan.ENTER
  else if part = "FMT::EXIT" ∨ part = "FmtSpan::EXIT" then some FmtSpan.EXIT
  else if part = "FMT::CLOSE" ∨ part = "FmtSpan::CLOSE" then some FmtSpan.CLOSE
  else if part = "FMT::NONE" ∨ part = "FmtSpan::NONE" then some FmtSpan.NONE
  else if part = "FMT::ACTIVE" ∨ part = "FmtSpan::ACTIVE" then some FmtSpan.ACTIVE
  else none

/-- The error message produced for an unrecognized span-event token. -/
def invalidSpanEventsMessage (part : String) : String :=
  "Invalid span events: " ++ part ++
    ". Valid options: FMT::NEW, FMT::ENTER, FMT::EXIT, FMT::CLOSE, FMT::NONE, FMT::ACTIVE, FMT::FULL"

/-- The token loop of `deserialize_span_events`: a FULL token returns the full
set immediately, a recognized token is or-ed into the accumulator, an
unrecognized token is a configuration error. -/
def spanEventsLoop : List String → Nat → Except String Nat
  | [], acc => Except.ok acc
  | part :: rest, acc =>
    if isFullToken part then Except.ok FmtSpan.FULL
    else
      match spanEventFlag? part with
      | some f => spanEventsLoop rest (acc ||| f)
      | none => Except.error (invalidSpanEventsMessage part)

/-- The trimmed tokens of a span-events input: split the trimmed input at the
pipe character and trim each token. -/
def spanEventTokens (s : String) : List String :=
  (splitOnChar '|' (trimChars s.data)).map fun cs => (trimChars cs).asString

/-- Embeds `deserialize_span_events`
(src/crates/tracing-otel/src/logger/deserialize.rs): trim the input, map the
empty string to the empty set, otherwise split at the pipe character, trim
each token and run the token loop starting from the empty set. -/
def deserialize_span_events (s : String) : Except String Nat :=
  if trimChars s.data = [] then Except.ok FmtSpan.NONE
  else spanEventsLoop (spanEventTokens s) FmtSpan.NONE

/-! ## Logger configuration and the file-appender merge

Embeds `Logger`, `LoggerFileAppender` and the hard defaults
(src/crates/tracing-otel/src/logger/config.rs and deserialize.rs).  The
`filename_prefix` field of the source is named `filename_prefix_opt` here. -/

/-- Log output format. -/
inductive LogFormat
  | compact
  | pretty
  | json
deriving DecidableEq, Repr

/-- Log file rotation strategy. -/
inductive LogRollingRotation
  | minutely
  | hourly
  | daily
  | never
deriving DecidableEq, Repr

/-- Hard default: retained log file count (`default::max_log_files`). -/
def default_max_log_files : Nat := 5

/-- Hard default: log level (`default::log_level`). -/
def default_log_level : Level := Level.info

/-- Hard default: log directory (`default::dir`). -/
def default_dir : String := "./logs"

/-- Hard default: log filename stem (`default::filename_prefix`). -/
def default_filename_stem : String := "combine"

/-- Hard default: log filename extension (`default::filename_suffix`). -/
def default_filename_suffix : String := "log"

/-- Hard default: span events (`default::span_events`). -/
def default_span_events : Nat := FmtSpan.NEW ||| FmtSpan.CLOSE

/-- Hard default: rotation (`default::rotation`). -/
def default_rotation : LogRollingRotation := LogRollingRotation.hourly

/-- Configuration for file-based log appender
(`LoggerFileAppender`, src/crates/tracing-otel/src/logger/config.rs).
`filename_prefix_opt` models the source's `filename_prefix` field. -/
structure LoggerFileAppender where
  enable : Bool
  non_blocking : Bool
  level : Option Level
  ansi : Bool
  format : Option LogFormat
  rotation : LogRollingRotation
  dir : Option String
  filename_prefix_opt : Option String
  filename_suffix : Option String
  max_log_files : Nat
deriving DecidableEq, Repr

/-- Configuration for the tracing and logging system
(`Logger`, src/crates/tracing-otel/src/logger/config.rs).  The `sample_ratio`
field (an `f64` in the source) is modelled as a rational. -/
structure Logger where
  service_name : String
  format : LogFormat
  span_events : Nat
  ansi : Bool
  level : Level
  sample_ratio : Rat
  metrics_interval_secs : Nat
  attributes : List (String × String)
  console_enabled : Bool
  file_appender : Option LoggerFileAppender
  otel_logs_enabled : Bool

/-- Embeds `LoggerFileAppender::merge_with_logger`
(src/crates/tracing-otel/src/logger/config.rs): inherit `level` and `format`
from the parent `Logger` when not set in the file appender; every other field
is kept from the file appender. -/
def LoggerFileAppender.merge_with_logger (self : LoggerFileAppender) (logger : Logger) :
    LoggerFileAppender :=
  { self with
    level := self.level.or (some logger.level)
    format := self.format.or (some logger.format) }

/-- Embeds `LoggerFileAppender::dir_or_default`. -/
def LoggerFileAppender.dir_or_default (self : LoggerFileAppender) : String :=
  self.dir.getD default_dir

/-- Embeds `LoggerFileAppender::filename_prefix_or_default`. -/
def LoggerFileAppender.filename_prefix_or_default (self : LoggerFileAppender) : String :=
  self.filename_prefix_opt.getD default_filename_stem

/-- Embeds `LoggerFileAppender::filename_suffix_or_default`. -/
def LoggerFileAppender.filename_suffix_or_default (self : LoggerFileAppender) : String :=
  self.filename_suffix.getD default_filename_suffix

/-- Embeds `LoggerFileAppender::format_or_default`. -/
def LoggerFileAppender.format_or_default (self : LoggerFileAppender) : LogFormat :=
  self.format.getD LogFormat.compact

/-- The `LoggerFileAppender` obtained by deserializing a configuration that
sets only `enable = true`: every `#[serde(default)]` field takes its default
(`false`, `None`), `rotation` takes `default::rotation` and `max_log_files`
takes `default::max_log_files`. -/
def fileAppenderEnableOnly : LoggerFileAppender :=
  { enable := true
    non_blocking := false
    level := none
    ansi := false
    format := none
    rotation := default_rotation
    dir := none
    filename_prefix_opt := none
    filename_suffix := none
    max_log_files := default_max_log_files }

/-! ## The write-once worker-guard cell

Embeds `set_nonblocking_appender_guard`
(src/crates/tracing-otel/src/logger/subscriber.rs).  The `OnceLock` cell is
modelled by its state, an `Option WorkerGuard`; the function returns the new
cell state together with its result. -/

/-- The worker guard of the non-blocking file writer, modelled as an opaque
token. -/
structure WorkerGuard where
  token : Nat
deriving DecidableEq, Repr

/-- Embeds `set_nonblocking_appender_guard`
(src/crates/tracing-otel/src/logger/subscriber.rs): `OnceLock::set` succeeds
exactly when the cell is still empty; otherwise it fails with the
configuration error and leaves the stored guard untouched. -/
def set_nonblocking_appender_guard (cell : Option WorkerGuard) (guard : WorkerGuard) :
    Option WorkerGuard × Except String Unit :=
  match cell with
  | none => (some guard, Except.ok ())
  | some stored => (some stored, Except.error "cannot lock for appender")

/-! ## Concrete instances used by the claim theorems -/

/-- The identity decoded from the claim C1 header: trace id
`4bf92f3577b34da6a3ce929d0e0e4736`, span id `00f067aa0ba902b7`, sampled, no
vendor state. -/
def identityC1 : TraceIdentity :=
  ⟨0x4bf92f3577b34da6a3ce929d0e0e4736, 0x00f067aa0ba902b7, true, []⟩

/-- The claim C1 request: its headers carry only the `traceparent` header
with value `00-4bf92f3577b34da6a3ce929d0e0e4736-00f067aa0ba902b7-01`. -/
def reqC1 : Request :=
  { method := "GET"
    target := "/"
    headers :=
      [("traceparent", "00-4bf92f3577b34da6a3ce929d0e0e4736-00f067aa0ba902b7-01".data)] }

/-- A request around an arbitrary header carrier, for claim C2. -/
def mkRequest (headers : Headers) : Request :=
  { method := "GET", target := "/", headers := headers }

/-- A concrete valid trace identity with vendor state, for the C3 witness. -/
def xW : TraceIdentity :=
  ⟨1, 2, true, [("key1", "value1"), ("key2", "value2")]⟩

/-- A guard holding a tracer provider and a meter provider whose shutdowns
both fail, the failing input for claim C4. -/
def guardBothFail : OtelGuard :=
  ⟨some ⟨"tracer", some "tracer boom"⟩, some ⟨"meter", some "meter boom"⟩, none⟩

/-- An environment with a (noisily spelled) signal-specific protocol for
traces and an unrecognized global protocol value. -/
def envW : Env := fun key =>
  if key = "OTEL_EXPORTER_OTLP_TRACES_PROTOCOL" then some " HTTP/JSON "
  else if key = OTEL_EXPORTER_OTLP_PROTOCOL then some "bogus" else none

/-- An environment with an unrecognized signal-specific value for traces and a
valid global value. -/
def envW2 : Env := fun key =>
  if key = "OTEL_EXPORTER_OTLP_TRACES_PROTOCOL" then some "nonsense"
  else if key = OTEL_EXPORTER_OTLP_PROTOCOL then some "http/proto" else none

/-- A file appender with every optional field set, for the C10 witness. -/
def faW : LoggerFileAppender :=
  { enable := true
    non_blocking := true
    level := some Level.debug
    ansi := true
    format := some LogFormat.pretty
    rotation := LogRollingRotation.daily
    dir := some "/var/log/app"
    filename_prefix_opt := some "app"
    filename_suffix := some "txt"
    max_log_files := 7 }

/-- A concrete parent logger configuration, for the C10 witness. -/
def loggerW : Logger :=
  { service_name := "svc"
    format := LogFormat.json
    span_events := default_span_events
    ansi := false
    level := Level.warn
    sample_ratio := 1
    metrics_interval_secs := 30
    attributes := []
    console_enabled := true
    file_appender := none
    otel_logs_enabled := false }

/-! ## Lemmas about the encoding primitives -/

@[simp]
theorem length_toHexFixed (w n : Nat) : (toHexFixed w n).length = w := by
  induction w generalizing n with
  | zero => rfl
  | succ w ih => simp [toHexFixed, ih]

theorem hexCharVal?_hexChar (d : Nat) (h : d < 16) :
    hexCharVal? (hexChar d) = some d := by
  revert h
  revert d
  decide

theorem hexChar_ne_dash (d : Nat) : hexChar d ≠ '-' := by
  rcases Nat.lt_or_ge d 16 with h | h
  · have hall : ∀ e, e < 16 → hexChar e ≠ '-' := by decide
    exact hall d h
  · have h10 : ¬ d < 10 := by omega
    have h16 : ¬ d < 16 := by omega
    simp [hexChar, h10, h16]

theorem dash_not_mem_toHexFixed (w n : Nat) : '-' ∉ toHexFixed w n := by
  induction w generalizing n with
  | zero => simp [toHexFixed]
  | succ w ih =>
    simp only [toHexFixed, List.mem_cons, not_or]
    exact ⟨fun h => hexChar_ne_dash _ h.symm, ih n⟩

theorem parseHex?_toHexFixed (w n : Nat) :
    parseHex? (toHexFixed w n) = some (n % 16 ^ w) := by
  induction w generalizing n with
  | zero => simp [toHexFixed, parseHex?, Nat.mod_one]
  | succ w ih =>
    have hd : n / 16 ^ w % 16 < 16 := Nat.mod_lt _ (by norm_num)
    simp only [toHexFixed, parseHex?, hexCharVal?_hexChar _ hd, ih, length_toHexFixed]
    have : n % (16 ^ w * 16) = n % 16 ^ w + 16 ^ w * (n / 16 ^ w % 16) := Nat.mod_mul
    rw [pow_succ, this]
    ring_nf

theorem parseHex?_lt (cs : List Char) (n : Nat) (h : parseHex? cs = some n) :
    n < 16 ^ cs.length := by
  induction cs generalizing n with
  | nil =>
    simp only [parseHex?, Option.some.injEq] at h
    simp [← h]
  | cons c cs ih =>
    simp only [parseHex?] at h
    rcases hc : hexCharVal? c with _ | d <;> rw [hc] at h
    · exact absurd h (by simp)
    rcases hr : parseHex? cs with _ | r <;> rw [hr] at h
    · exact absurd h (by simp)
    simp only [Option.some.injEq] at h
    have hd : d < 16 := by
      revert hc
      unfold hexCharVal?
      split
      · intro hc
        simp only [Option.some.injEq] at hc
        omega
      · split
        · intro hc
          simp only [Option.some.injEq] at hc
          omega
        · split
          · intro hc
            simp only [Option.some.injEq] at hc
            omega
          · intro hc
            exact absurd hc (by simp)
    have hrlt : r < 16 ^ cs.length := ih r hr
    calc n = d * 16 ^ cs.length + r := h.symm
    _ < d * 16 ^ cs.length + 16 ^ cs.length := by omega
    _ = (d + 1) * 16 ^ cs.length := by ring
    _ ≤ 16 * 16 ^ cs.length := Nat.mul_le_mul_right _ (by omega)
    _ = 16 ^ (cs.length + 1) := by ring
    _ = 16 ^ (c :: cs).length := by simp

theorem splitOnChar_ne_nil (sep : Char) (cs : List Char) : splitOnChar sep cs ≠ [] := by
  cases cs with
  | nil => simp [splitOnChar]
  | cons c cs =>
    unfold splitOnChar
    split
    · simp
    · split
      · simp
      · simp

theorem splitOnChar_of_not_mem (sep : Char) (a : List Char) (ha : sep ∉ a) :
    splitOnChar sep a = [a] := by
  induction a with
  | nil => rfl
  | cons c cs ih =>
    simp only [List.mem_cons, not_or] at ha
    rw [splitOnChar, if_neg (Ne.symm ha.1), ih ha.2]

theorem splitOnChar_append (sep : Char) (a b : List Char) (ha : sep ∉ a) :
    splitOnChar sep (a ++ sep :: b) = a :: splitOnChar sep b := by
  induction a with
  | nil => simp [splitOnChar]
  | cons c cs ih =>
    simp only [List.mem_cons, not_or] at ha
    rw [List.cons_append, splitOnChar, if_neg (Ne.symm ha.1), ih ha.2]

/-! ## Shared facts about trace-context decoding and the span factory -/

/-- Any successfully decoded `traceparent` carries a non-zero 128-bit trace id
and a non-zero 64-bit span id. -/
theorem parseTraceparent_valid (cs : List Char) (t s : Nat) (b : Bool)
    (h : parseTraceparent cs = some (t, s, b)) :
    t ≠ 0 ∧ t < 2 ^ 128 ∧ s ≠ 0 ∧ s < 2 ^ 64 := by
  unfold parseTraceparent at h
  rcases hsp : splitOnChar '-' cs with _ | ⟨ver, _ | ⟨tid, _ | ⟨sid, _ | ⟨flg, _ | ⟨x, l⟩⟩⟩⟩⟩ <;>
    rw [hsp] at h <;> try simp at h
  rcases hv : parseHex? ver with _ | v <;> rw [hv] at h
  · simp at h
  rcases htp : parseHex? tid with _ | tv <;> rw [htp] at h
  · simp at h
  rcases hsp2 : parseHex? sid with _ | sv <;> rw [hsp2] at h
  · simp at h
  rcases hf : parseHex? flg with _ | fv <;> rw [hf] at h
  · simp at h
  simp only at h
  split_ifs at h with hcond
  obtain ⟨-, -, hlen32, ht0, hlen16, hs0, -⟩ := hcond
  simp only [Option.some.injEq, Prod.mk.injEq] at h
  obtain ⟨hteq, hseq, -⟩ := h
  have htb := parseHex?_lt tid tv htp
  have hsb := parseHex?_lt sid sv hsp2
  rw [hlen32] at htb
  rw [hlen16] at hsb
  have h32 : (16 : Nat) ^ 32 = 2 ^ 128 := by norm_num
  have h16 : (16 : Nat) ^ 16 = 2 ^ 64 := by norm_num
  exact ⟨hteq ▸ ht0, hteq ▸ h32 ▸ htb, hseq ▸ hs0, hseq ▸ h16 ▸ hsb⟩

/-- Any context successfully extracted from a carrier carries a non-zero
128-bit trace id and a non-zero 64-bit span id. -/
theorem extract_context_valid (hs : Headers) (p : TraceIdentity)
    (h : extract_context_from_headers hs = some p) :
    p.traceId ≠ 0 ∧ p.traceId < 2 ^ 128 ∧ p.spanId ≠ 0 ∧ p.spanId < 2 ^ 64 := by
  unfold extract_context_from_headers at h
  rcases hg : getHeader hs "traceparent" with _ | v
  · rw [hg] at h
    simp at h
  rw [hg] at h
  simp only at h
  rcases hp : parseTraceparent v with _ | ⟨t, s, b⟩
  · rw [hp] at h
    simp at h
  rw [hp] at h
  simp only [Option.some.injEq] at h
  subst h
  exact parseTraceparent_valid v t s b hp

/-- The parent of a freshly created request span is exactly the context
decoded from the request headers. -/
theorem make_request_span_parent (level : Level) (req : Request) (fresh : Nat) :
    (make_request_span level req fresh).parent = extract_context_from_headers req.headers :=
  rfl

/-- The `trace_id` field recorded on a freshly created request span: the
decoded parent's trace id when the carrier decodes, otherwise the freshly
generated one. -/
theorem make_request_span_trace_id_field (level : Level) (req : Request) (fresh : Nat) :
    (make_request_span level req fresh).fields.lookup "trace_id" =
      some (FieldValue.str (traceIdDisplay
        ((extract_context_from_headers req.headers).elim fresh TraceIdentity.traceId))) := by
  cases hext : extract_context_from_headers req.headers with
  | none =>
    simp only [make_request_span, set_otel_parent, Span.set_parent, Span.record,
      Span.contextTraceId, hext]
    rfl
  | some p =>
    simp only [make_request_span, set_otel_parent, Span.set_parent, Span.record,
      Span.contextTraceId, hext]
    rfl

/-! ## Claims about the Span Factory and the Context Propagator (C1, C2, C3) -/

/-- Claim C1: for a span created by `make_request_span` from a request
carrying only the given `traceparent` header, span creation decodes the
carrier, installs the decoded identity as the span's parent before the span is
returned to any caller, and records trace id
`4bf92f3577b34da6a3ce929d0e0e4736` into the reserved `trace_id` field
(whatever trace id the generator would have supplied for a parentless span). -/
theorem C1_make_request_span_records_remote_trace_id (fresh : Nat) :
    extract_context_from_headers reqC1.headers = some identityC1 ∧
    (make_request_span Level.info reqC1 fresh).parent = some identityC1 ∧
    (make_request_span Level.info reqC1 fresh).fields.lookup "trace_id" =
      some (FieldValue.str "4bf92f3577b34da6a3ce929d0e0e4736") := by
  have hext : extract_context_from_headers reqC1.headers = some identityC1 := by decide
  refine ⟨hext, ?_, ?_⟩
  · rw [make_request_span_parent, hext]
  · rw [make_request_span_trace_id_field, hext]
    show some (FieldValue.str (traceIdDisplay identityC1.traceId)) =
      some (FieldValue.str "4bf92f3577b34da6a3ce929d0e0e4736")
    decide

/-- Claim C2: decoding never fails — the empty carrier and a malformed
`traceparent` (`invalid`) decode to the "no parent" context — and span
creation against any carrier still records a well-formed, non-zero trace id
(`fresh` stands for the tracer's generated id, which is non-zero and 128-bit
by construction). -/
theorem C2_decoding_is_total_and_trace_id_nonzero (headers : Headers) (fresh : Nat)
    (h0 : fresh ≠ 0) (hlt : fresh < 2 ^ 128) :
    extract_context_from_headers [] = none ∧
    extract_context_from_headers [("traceparent", "invalid".data)] = none ∧
    ∃ t, (make_request_span Level.info (mkRequest headers) fresh).fields.lookup "trace_id" =
        some (FieldValue.str (traceIdDisplay t)) ∧ t ≠ 0 ∧ t < 2 ^ 128 := by
  refine ⟨by decide, by decide, ?_⟩
  have hfield := make_request_span_trace_id_field Level.info (mkRequest headers) fresh
  cases hext : extract_context_from_headers headers with
  | none =>
    refine ⟨fresh, ?_, h0, hlt⟩
    rw [hfield]
    have : extract_context_from_headers (mkRequest headers).headers = none := hext
    rw [this]
    rfl
  | some p =>
    obtain ⟨ht0, htlt, -, -⟩ := extract_context_valid headers p hext
    refine ⟨p.traceId, ?_, ht0, htlt⟩
    rw [hfield]
    have : extract_context_from_headers (mkRequest headers).headers = some p := hext
    rw [this]
    rfl

/-- Witness for claim C2 at the empty carrier with generated id 1. -/
theorem C2_decoding_is_total_and_trace_id_nonzero_witness :
    extract_context_from_headers [] = none ∧
    extract_context_from_headers [("traceparent", "invalid".data)] = none ∧
    ∃ t, (make_request_span Level.info (mkRequest []) 1).fields.lookup "trace_id" =
        some (FieldValue.str (traceIdDisplay t)) ∧ t ≠ 0 ∧ t < 2 ^ 128 :=
  C2_decoding_is_total_and_trace_id_nonzero [] 1 (by decide) (by norm_num)

/-- The hyphen-joined `traceparent` value splits into its four fields. -/
theorem splitOnChar_traceparentValue (x : TraceIdentity) :
    splitOnChar '-' (traceparentValue x) =
      [['0', '0'], toHexFixed 32 x.traceId, toHexFixed 16 x.spanId,
        traceFlagsValue x.sampled] := by
  have hflags : '-' ∉ traceFlagsValue x.sampled := by
    cases hx : x.sampled <;> simp [traceFlagsValue]
  have h1 : traceparentValue x =
      ['0', '0'] ++ '-' :: (toHexFixed 32 x.traceId ++
        '-' :: (toHexFixed 16 x.spanId ++ '-' :: traceFlagsValue x.sampled)) := by
    simp [traceparentValue]
  rw [h1, splitOnChar_append _ _ _ (by decide),
    splitOnChar_append _ _ _ (dash_not_mem_toHexFixed _ _),
    splitOnChar_append _ _ _ (dash_not_mem_toHexFixed _ _),
    splitOnChar_of_not_mem _ _ hflags]

/-- Decoding the encoded `traceparent` value of a valid identity reproduces
its trace id, span id and sampling flag. -/
theorem parseTraceparent_traceparentValue (x : TraceIdentity)
    (ht : x.traceId ≠ 0) (htl : x.traceId < 2 ^ 128)
    (hs : x.spanId ≠ 0) (hsl : x.spanId < 2 ^ 64) :
    parseTraceparent (traceparentValue x) = some (x.traceId, x.spanId, x.sampled) := by
  have h32 : (2 : Nat) ^ 128 = 16 ^ 32 := by norm_num
  have h16 : (2 : Nat) ^ 64 = 16 ^ 16 := by norm_num
  have htmod : x.traceId % 16 ^ 32 = x.traceId := Nat.mod_eq_of_lt (h32 ▸ htl)
  have hsmod : x.spanId % 16 ^ 16 = x.spanId := Nat.mod_eq_of_lt (h16 ▸ hsl)
  unfold parseTraceparent
  rw [splitOnChar_traceparentValue]
  simp only [parseHex?_toHexFixed, htmod, hsmod]
  cases hx : x.sampled <;>
    simp [traceFlagsValue, parseHex?, hexCharVal?, length_toHexFixed, ht, hs]

/-- Claim C3: injecting a valid trace identity into an empty carrier and
decoding that carrier reproduces the identity's trace id, span id and
sampling flag bit-for-bit, and the carrier's `tracestate` header holds the
identity's vendor state as the ordered, comma-joined list of key=value
pairs. -/
theorem C3_inject_extract_round_trip (x : TraceIdentity)
    (ht0 : x.traceId ≠ 0) (htl : x.traceId < 2 ^ 128)
    (hs0 : x.spanId ≠ 0) (hsl : x.spanId < 2 ^ 64) :
    (extract_context_from_headers
        (inject_context_into_request (some x) [])).map TraceIdentity.traceId =
      some x.traceId ∧
    (extract_context_from_headers
        (inject_context_into_request (some x) [])).map TraceIdentity.spanId =
      some x.spanId ∧
    (extract_context_from_headers
        (inject_context_into_request (some x) [])).map TraceIdentity.sampled =
      some x.sampled ∧
    getHeader (inject_context_into_request (some x) []) "tracestate" =
      some (joinPairs x.vendorState) := by
  have hvalid : isValidIdentity x = true := by
    simp [isValidIdentity, ht0, hs0]
  have hcarrier : inject_context_into_request (some x) [] =
      [("traceparent", traceparentValue x), ("tracestate", joinPairs x.vendorState)] := by
    simp [inject_context_into_request, hvalid, setHeader]
  have hget : getHeader (inject_context_into_request (some x) []) "traceparent" =
      some (traceparentValue x) := by
    rw [hcarrier]
    rfl
  have hgetts : getHeader (inject_context_into_request (some x) []) "tracestate" =
      some (joinPairs x.vendorState) := by
    rw [hcarrier]
    rfl
  have hparse := parseTraceparent_traceparentValue x ht0 htl hs0 hsl
  refine ⟨?_, ?_, ?_, hgetts⟩ <;>
    · unfold extract_context_from_headers
      rw [hget]
      simp only [hparse]
      rfl

/-- Witness for claim C3 at a concrete identity with two vendor-state
entries. -/
theorem C3_inject_extract_round_trip_witness :
    (extract_context_from_headers
        (inject_context_into_request (some xW) [])).map TraceIdentity.traceId =
      some xW.traceId ∧
    (extract_context_from_headers
        (inject_context_into_request (some xW) [])).map TraceIdentity.spanId =
      some xW.spanId ∧
    (extract_context_from_headers
        (inject_context_into_request (some xW) [])).map TraceIdentity.sampled =
      some xW.sampled ∧
    getHeader (inject_context_into_request (some xW) []) "tracestate" =
      some (joinPairs xW.vendorState) :=
  C3_inject_extract_round_trip xW (by decide) (by decide) (by decide) (by decide)

/-! ## Claims about the Lifecycle Guard (C4, C5) -/

/-- Claim C4: evaluation of `OtelGuard::shutdown` at a guard with two failing
providers.  The code does attempt every held provider and collects all
failures, but the returned error is built from the whole collected failure
list — the second failure is carried in the returned error, not logged, and
the error is not the first failure alone.  This contradicts the claim (and the
function's own doc comment, which says only the first error is returned while
the rest are logged). -/
theorem C4_shutdown_error_carries_all_failures :
    guardBothFail.shutdown.1.invoked =
      [⟨"tracer", some "tracer boom"⟩, ⟨"meter", some "meter boom"⟩] ∧
    guardBothFail.shutdown.1.errors = ["tracer boom", "meter boom"] ∧
    guardBothFail.shutdown.2 =
      Except.error (shutdownErrorMessage ["tracer boom", "meter boom"]) ∧
    shutdownErrorMessage ["tracer boom", "meter boom"] ≠
      shutdownErrorMessage ["tracer boom"] := by
  refine ⟨rfl, rfl, rfl, ?_⟩
  decide

/-- Claim C5: every provider handle held by an `OtelGuard` is shut down at
most once.  `shutdown` takes every handle (the residual guard holds nothing)
and invokes each held provider exactly once; after it, the implicit `Drop`
teardown invokes no provider shutdown, and a second shutdown of the residual
guard state invokes nothing and returns success. -/
theorem C5_shutdown_at_most_once (g : OtelGuard) :
    g.shutdown.1.guard = ⟨none, none, none⟩ ∧
    g.shutdown.1.invoked = g.heldProviders ∧
    (g.shutdown.1.guard.dropRun).invoked = [] ∧
    (g.shutdown.1.guard.shutdown).1.invoked = [] ∧
    (g.shutdown.1.guard.shutdown).2 = Except.ok () := by
  obtain ⟨t, m, l⟩ := g
  cases t <;> cases m <;> cases l <;>
    simp [OtelGuard.shutdown, OtelGuard.dropRun, OtelGuard.heldProviders, shutdownStep]

/-! ## Claim about exporter protocol resolution (C6) -/

/-- Claim C6: the exporter protocol of a signal is resolved by trying the
signal-specific environment setting, then the global setting, then gRPC; the
recognized values (after trimming and ASCII lowercasing) are exactly `grpc`,
`http/protobuf` (or `http/proto`) and `http/json`, and an absent or
unrecognized value at either level falls through the chain rather than
producing an error. -/
theorem C6_protocol_resolution_chain :
    (∀ (env : Env) (sig : String) (p : Protocol),
      protocol_from_env env sig = some p → protocol_for_signal env sig = p) ∧
    (∀ (env : Env) (sig : String) (p : Protocol),
      protocol_from_env env sig = none →
      protocol_from_env env OTEL_EXPORTER_OTLP_PROTOCOL = some p →
      protocol_for_signal env sig = p) ∧
    (∀ (env : Env) (sig : String),
      protocol_from_env env sig = none →
      protocol_from_env env OTEL_EXPORTER_OTLP_PROTOCOL = none →
      protocol_for_signal env sig = Protocol.grpc) ∧
    (∀ (env : Env) (key : String), env key = none → protocol_from_env env key = none) ∧
    (∀ (env : Env) (key v : String), env key = some v → parse_protocol v = none →
      protocol_from_env env key = none) ∧
    (∀ v : String, parse_protocol v = some Protocol.grpc ↔
      normalizeProtocolValue v = "grpc") ∧
    (∀ v : String, parse_protocol v = some Protocol.httpBinary ↔
      (normalizeProtocolValue v = "http/protobuf" ∨
        normalizeProtocolValue v = "http/proto")) ∧
    (∀ v : String, parse_protocol v = some Protocol.httpJson ↔
      normalizeProtocolValue v = "http/json") ∧
    (∀ v : String, parse_protocol v = none ↔
      (normalizeProtocolValue v ≠ "grpc" ∧ normalizeProtocolValue v ≠ "http/protobuf" ∧
        normalizeProtocolValue v ≠ "http/proto" ∧ normalizeProtocolValue v ≠ "http/json")) := by
  refine ⟨?_, ?_, ?_, ?_, ?_, ?_, ?_, ?_, ?_⟩
  · intro env sig p h
    simp [protocol_for_signal, h]
  · intro env sig p h1 h2
    simp [protocol_for_signal, h1, h2]
  · intro env sig h1 h2
    simp [protocol_for_signal, h1, h2]
  · intro env key h
    simp [protocol_from_env, h]
  · intro env key v h hv
    simp [protocol_from_env, h, hv]
  · intro v
    unfold parse_protocol
    split_ifs <;> simp_all
  · intro v
    unfold parse_protocol
    split_ifs <;> simp_all
  · intro v
    unfold parse_protocol
    split_ifs with h1 h2 h3
    · simp_all
    · rcases h2 with h | h <;> simp_all
    · simp_all
    · simp_all
  · intro v
    unfold parse_protocol
    split_ifs with h1 h2 h3
    · simp_all
    · rcases h2 with h | h <;> simp_all
    · simp_all
    · simp_all

/-- Witness for claim C6 at concrete environments: the trimmed lowercased
signal value wins, an unrecognized signal value falls through to the global
value, and with no recognized value anywhere the result is gRPC. -/
theorem C6_protocol_resolution_chain_witness :
    protocol_for_signal envW "OTEL_EXPORTER_OTLP_TRACES_PROTOCOL" = Protocol.httpJson ∧
    protocol_for_signal envW "OTEL_EXPORTER_OTLP_METRICS_PROTOCOL" = Protocol.grpc ∧
    protocol_for_signal envW2 "OTEL_EXPORTER_OTLP_TRACES_PROTOCOL" = Protocol.httpBinary := by
  refine ⟨?_, ?_, ?_⟩
  · exact C6_protocol_resolution_chain.1 envW _ Protocol.httpJson (by decide)
  · exact C6_protocol_resolution_chain.2.2.1 envW _ (by decide) (by decide)
  · exact C6_protocol_resolution_chain.2.1 envW2 _ Protocol.httpBinary (by decide) (by decide)

/-! ## Claim about span-event deserialization (C7) -/

/-- Counterexample to claim C7 as stated: the input `FMT::FULL|bogus` contains
the unrecognized token `bogus`, yet `deserialize_span_events` returns the FULL
set successfully instead of a configuration error, because a FULL token
short-circuits the token loop before later tokens are examined. -/
theorem C7_unrecognized_token_after_full_counterexample :
    deserialize_span_events "FMT::FULL|bogus" = Except.ok FmtSpan.FULL ∧
    spanEventFlag? "bogus" = none ∧
    isFullToken "bogus" = false :=
  ⟨rfl, by decide, by decide⟩

/-- The token loop fails with the configuration error of the first
unrecognized token, provided every earlier token is a recognized non-FULL
token. -/
theorem spanEventsLoop_error_of_invalid (pre : List String) (bad : String)
    (rest : List String) (acc : Nat)
    (hpre : ∀ p ∈ pre, isFullToken p = false ∧ (spanEventFlag? p).isSome)
    (hbadFull : isFullToken bad = false) (hbad : spanEventFlag? bad = none) :
    spanEventsLoop (pre ++ bad :: rest) acc =
      Except.error (invalidSpanEventsMessage bad) := by
  induction pre generalizing acc with
  | nil =>
    simp [spanEventsLoop, hbadFull, hbad]
  | cons p pre ih =>
    obtain ⟨hp, hflag⟩ := hpre p (by simp)
    obtain ⟨f, hf⟩ := Option.isSome_iff_exists.mp hflag
    rw [List.cons_append, spanEventsLoop]
    simp only [hp, Bool.false_eq_true, if_false, hf]
    exact ih (acc ||| f) fun q hq => hpre q (by simp [hq])

/-- Claim C7 as amended: `deserialize_span_events` maps `FMT::NEW|FMT::CLOSE`
to the union of the NEW and CLOSE flags, maps the empty (or all-whitespace)
string to the empty flag set, and returns a configuration error for any input
containing an unrecognized token that is not preceded by a FULL token (a FULL
token short-circuits the parse, returning the full set immediately and
ignoring all later tokens). -/
theorem C7_deserialize_span_events_amended :
    deserialize_span_events "FMT::NEW|FMT::CLOSE" =
      Except.ok (FmtSpan.NEW ||| FmtSpan.CLOSE) ∧
    deserialize_span_events "" = Except.ok FmtSpan.NONE ∧
    deserialize_span_events "   " = Except.ok FmtSpan.NONE ∧
    (∀ (s : String) (pre : List String) (bad : String) (rest : List String),
      trimChars s.data ≠ [] →
      spanEventTokens s = pre ++ bad :: rest →
      (∀ p ∈ pre, isFullToken p = false ∧ (spanEventFlag? p).isSome) →
      isFullToken bad = false →
      spanEventFlag? bad = none →
      deserialize_span_events s = Except.error (invalidSpanEventsMessage bad)) := by
  refine ⟨rfl, rfl, rfl, ?_⟩
  intro s pre bad rest hne htok hpre hbadFull hbad
  rw [deserialize_span_events, if_neg hne, htok]
  exact spanEventsLoop_error_of_invalid pre bad rest _ hpre hbadFull hbad

/-- Witness for the amended claim C7 at the concrete input `FMT::NEW|bogus`:
the unrecognized token `bogus` is not preceded by a FULL token, so
deserialization fails with the configuration error naming it. -/
theorem C7_deserialize_span_events_amended_witness :
    deserialize_span_events "FMT::NEW|bogus" =
      Except.error (invalidSpanEventsMessage "bogus") :=
  C7_deserialize_span_events_amended.2.2.2 "FMT::NEW|bogus" ["FMT::NEW"] "bogus" []
    (by decide) (by decide)
    (by intro p hp; simp at hp; subst hp; exact ⟨by decide, by decide⟩)
    (by decide) (by decide)

/-! ## Claims about the logger file-appender configuration (C8, C10) -/

/-- Claim C8: merging a `LoggerFileAppender` that sets only `enable = true`
with a parent `Logger` resolves every optional field to a concrete value:
`level` and `format` become the parent's level and format, and rotation,
directory, filename prefix and filename suffix resolve to the hard defaults
`Hourly`, `./logs`, `combine` and `log`. -/
theorem C8_enable_only_merge_resolves_every_field (logger : Logger) :
    (fileAppenderEnableOnly.merge_with_logger logger).enable = true ∧
    (fileAppenderEnableOnly.merge_with_logger logger).level = some logger.level ∧
    (fileAppenderEnableOnly.merge_with_logger logger).format = some logger.format ∧
    (fileAppenderEnableOnly.merge_with_logger logger).rotation = LogRollingRotation.hourly ∧
    (fileAppenderEnableOnly.merge_with_logger logger).dir_or_default = "./logs" ∧
    (fileAppenderEnableOnly.merge_with_logger logger).filename_prefix_or_default = "combine" ∧
    (fileAppenderEnableOnly.merge_with_logger logger).filename_suffix_or_default = "log" :=
  ⟨rfl, rfl, rfl, rfl, rfl, rfl, rfl⟩

/-- Claim C10: `merge_with_logger` changes at most `level` and `format`: every
other field is returned unchanged, and a `level` or `format` that is already
set is kept rather than overwritten by the parent's value. -/
theorem C10_merge_with_logger_frame (fa : LoggerFileAppender) (logger : Logger) :
    (fa.merge_with_logger logger).enable = fa.enable ∧
    (fa.merge_with_logger logger).non_blocking = fa.non_blocking ∧
    (fa.merge_with_logger logger).ansi = fa.ansi ∧
    (fa.merge_with_logger logger).rotation = fa.rotation ∧
    (fa.merge_with_logger logger).dir = fa.dir ∧
    (fa.merge_with_logger logger).filename_prefix_opt = fa.filename_prefix_opt ∧
    (fa.merge_with_logger logger).filename_suffix = fa.filename_suffix ∧
    (fa.merge_with_logger logger).max_log_files = fa.max_log_files ∧
    (∀ l, fa.level = some l → (fa.merge_with_logger logger).level = some l) ∧
    (∀ f, fa.format = some f → (fa.merge_with_logger logger).format = some f) := by
  refine ⟨rfl, rfl, rfl, rfl, rfl, rfl, rfl, rfl, ?_, ?_⟩
  · intro l hl
    simp [LoggerFileAppender.merge_with_logger, hl]
  · intro f hf
    simp [LoggerFileAppender.merge_with_logger, hf]

/-- Witness for claim C10 at a fully populated file appender: the frame fields
come back unchanged and the already-set level and format are kept. -/
theorem C10_merge_with_logger_frame_witness :
    (faW.merge_with_logger loggerW).dir = faW.dir ∧
    (faW.merge_with_logger loggerW).max_log_files = faW.max_log_files ∧
    (faW.merge_with_logger loggerW).level = some Level.debug ∧
    (faW.merge_with_logger loggerW).format = some LogFormat.pretty :=
  ⟨(C10_merge_with_logger_frame faW loggerW).2.2.2.2.1,
    (C10_merge_with_logger_frame faW loggerW).2.2.2.2.2.2.2.1,
    (C10_merge_with_logger_frame faW loggerW).2.2.2.2.2.2.2.2.1 Level.debug rfl,
    (C10_merge_with_logger_frame faW loggerW).2.2.2.2.2.2.2.2.2 LogFormat.pretty rfl⟩

/-! ## Claim about the write-once worker-guard cell (C9) -/

/-- Claim C9: the worker-guard slot is a write-once cell.  The first set
succeeds and stores the guard; every set against a non-empty cell returns an
error and leaves the originally stored guard in place. -/
theorem C9_write_once_guard_cell (g stored later : WorkerGuard) :
    set_nonblocking_appender_guard none g = (some g, Except.ok ()) ∧
    set_nonblocking_appender_guard (some stored) later =
      (some stored, Except.error "cannot lock for appender") :=
  ⟨rfl, rfl⟩

end TracingOtel
